import Mathlib

/-!
Shallow embedding of the data-fetching hook in src/src/useMovies.js.

The hook keeps three reactive state cells (movies, isLoading, error) and, on
every query change, runs an effect: a minimum-length gate, or an asynchronous
attempt (fetchMovies) that issues one HTTP GET, interprets the OMDB response,
and updates the state cells through setters.  We model the effect as the list
of primitive actions it performs (state setters, a console log, the outbound
request), and fold that action list over the state.  A network attempt's
outcome (the response the transport eventually delivers, or a rejection with
an exception name) is an explicit parameter, so interleavings of superseded
and current attempts can be expressed by concatenating action lists in
arrival order.
-/

/-- One movie record as returned by the OMDB search endpoint.  The hook never
inspects its fields; they are carried through verbatim. -/
structure ResultItem where
  imdbID : String
  Title : String
  Year : String
  Poster : String
  deriving DecidableEq, Repr

/-- The parsed JSON body of an OMDB search response: a `Response` string and
an optional `Search` array (`none` models a JS `undefined` / absent field). -/
structure OmdbBody where
  Response : String
  Search : Option (List ResultItem)
  deriving DecidableEq, Repr

/-- An HTTP response as seen through fetch: `ok` is true exactly for
200-class statuses, `status` the numeric code, `body` the parsed JSON. -/
structure HttpResponse where
  ok : Bool
  status : Nat
  body : OmdbBody
  deriving DecidableEq, Repr

/-- What the transport eventually delivers for one attempt: either a resolved
response, or a rejection carrying the exception's `name` and `message`
(an abort surfaces as `reject "AbortError" _`). -/
inductive FetchOutcome where
  | success (res : HttpResponse)
  | reject (name : String) (message : String)
  deriving DecidableEq, Repr

/-- The hook's reactive state triple: `movies` is `none` when the JS value is
`undefined`, `some xs` when it is an array. -/
structure HookState where
  movies : Option (List ResultItem)
  isLoading : Bool
  error : String
  deriving DecidableEq, Repr

/-- `useState` initial values: `useState([])`, `useState(false)`, `useState("")`. -/
def initialState : HookState :=
  { movies := some [], isLoading := false, error := "" }

/-- A primitive side effect performed by the hook's effect body. -/
inductive HookAction where
  | setMovies (v : Option (List ResultItem))
  | setIsLoading (b : Bool)
  | setError (e : String)
  | consoleLog (m : String)
  | fetchRequest (url : String)
  deriving DecidableEq, Repr

/-- The fixed API key (`const KEY = "b0237cb1"`). -/
def KEY : String := "b0237cb1"

/-- The URL built by the template literal
`http://www.omdbapi.com/?apikey=KEY&&s=query` : the query is interpolated
verbatim, with a double ampersand before `s`. -/
def requestUrl (query : String) : String :=
  "http://www.omdbapi.com/?apikey=" ++ KEY ++ "&&s=" ++ query

/-- The message of the transport error thrown on a non-ok response. -/
def httpErrMsg (status : Nat) : String :=
  "Something wrong with fetching movies. HTTP error status: " ++ toString status

/-- Actions performed by `fetchMovies` before its first suspension point:
`setIsLoading(true)`, `setError("")`, then the outbound fetch. -/
def attemptStartActions (query : String) : List HookAction :=
  [HookAction.setIsLoading true, HookAction.setError "", HookAction.fetchRequest (requestUrl query)]

/-- The `catch` clause: `if (error.name !== "AbortError") { console.log(...);
setError(...) }`. -/
def catchActions (name msg : String) : List HookAction :=
  if name ≠ "AbortError" then [HookAction.consoleLog msg, HookAction.setError msg] else []

/-- Actions performed after the transport settles, before the `finally`
clause: the rest of the `try` block on success, or the `catch` filter on a
thrown or rejected exception.  A thrown `new Error(...)` has exception name
`"Error"`. -/
def attemptMidActions (o : FetchOutcome) : List HookAction :=
  match o with
  | FetchOutcome.success res =>
      if !res.ok then catchActions "Error" (httpErrMsg res.status)
      else if res.body.Response = "False" then catchActions "Error" "Movie not found!"
      else [HookAction.setMovies res.body.Search, HookAction.setError ""]
  | FetchOutcome.reject name msg => catchActions name msg

/-- Actions performed by `fetchMovies` after the transport settles: the rest
of the `try` block, the `catch` filter, and the `finally` clause
(`setIsLoading(false)` on every exit path). -/
def fetchPostActions (o : FetchOutcome) : List HookAction :=
  attemptMidActions o ++ [HookAction.setIsLoading false]

/-- The whole of `fetchMovies` for one attempt whose transport delivers `o`. -/
def fetchMoviesActions (query : String) (o : FetchOutcome) : List HookAction :=
  attemptStartActions query ++ fetchPostActions o

/-- The minimum-length gate branch: `setMovies([]); setError(""); return;`. -/
def gateActions : List HookAction :=
  [HookAction.setMovies (some []), HookAction.setError ""]

/-- The effect body for one query change: the gate short-circuit when
`query.length < 3`, otherwise a full attempt. -/
def effectActions (query : String) (o : FetchOutcome) : List HookAction :=
  if query.length < 3 then gateActions else fetchMoviesActions query o

/-- Interpreting one action on the state triple (logs and the outbound
request do not touch the triple). -/
def applyAction (s : HookState) : HookAction → HookState
  | HookAction.setMovies v => { s with movies := v }
  | HookAction.setIsLoading b => { s with isLoading := b }
  | HookAction.setError e => { s with error := e }
  | HookAction.consoleLog _ => s
  | HookAction.fetchRequest _ => s

/-- Folding a list of actions over the state. -/
def applyActions (acts : List HookAction) (s : HookState) : HookState :=
  acts.foldl applyAction s

/-- Final state after a full attempt for `query` whose transport delivers `o`. -/
def attemptFinal (query : String) (o : FetchOutcome) (s : HookState) : HookState :=
  applyActions (fetchMoviesActions query o) s

/-- Final state after one effect run (gate or attempt). -/
def effectFinal (query : String) (o : FetchOutcome) (s : HookState) : HookState :=
  applyActions (effectActions query o) s

/-- The console-log entries of an action list. -/
def actionLogs (acts : List HookAction) : List String :=
  acts.filterMap fun a =>
    match a with
    | HookAction.consoleLog m => some m
    | _ => none

/-- The diagnostic log entries produced after an attempt's transport settles. -/
def attemptLogs (o : FetchOutcome) : List String :=
  actionLogs (fetchPostActions o)

/-- The outbound request URLs of an action list. -/
def fetchRequests (acts : List HookAction) : List String :=
  acts.filterMap fun a =>
    match a with
    | HookAction.fetchRequest u => some u
    | _ => none

/-- Whether an action writes the `isLoading` cell. -/
def isSetIsLoading : HookAction → Bool
  | HookAction.setIsLoading _ => true
  | _ => false

/-- The state right after an attempt's synchronous start
(`setIsLoading(true); setError("")`). -/
def attemptStart (s : HookState) : HookState :=
  { s with isLoading := true, error := "" }

/-- Final state of the superseded-attempt interleaving: attempt 1 for `q1`
starts; the query changes to `q2`, which aborts attempt 1's controller and
runs attempt 2 to completion; attempt 1's outcome `o1` (whatever its
transport delivers despite the abort signal) then arrives late and its
post-settlement actions run last. -/
def staleOverwriteFinal (s0 : HookState) (q1 : String) (o1 : FetchOutcome)
    (q2 : String) (o2 : FetchOutcome) : HookState :=
  applyActions (fetchPostActions o1)
    (applyActions (fetchMoviesActions q2 o2)
      (applyActions (attemptStartActions q1) s0))

/-- Whether a character is left unescaped by standard URL-encoding of a
query component (letters, digits, and - _ . ! ~ * ' ( )). -/
def isUnreservedURI (c : Char) : Bool :=
  let n := c.toNat
  (65 ≤ n && n ≤ 90) || (97 ≤ n && n ≤ 122) || (48 ≤ n && n ≤ 57) ||
    [45, 95, 46, 33, 126, 42, 39, 40, 41].contains n

/-- Uppercase hexadecimal digit. -/
def hexDigit (n : Nat) : Char :=
  if n < 10 then Char.ofNat (48 + n) else Char.ofNat (55 + n)

/-- Percent-escape of one byte. -/
def byteEscape (b : Nat) : String :=
  String.mk [Char.ofNat 37, hexDigit (b / 16), hexDigit (b % 16)]

/-- The UTF-8 bytes of a character. -/
def charUtf8Bytes (c : Char) : List Nat :=
  let n := c.toNat
  if n < 128 then [n]
  else if n < 2048 then [192 + n / 64, 128 + n % 64]
  else if n < 65536 then [224 + n / 4096, 128 + (n / 64) % 64, 128 + n % 64]
  else [240 + n / 262144, 128 + (n / 4096) % 64, 128 + (n / 64) % 64, 128 + n % 64]

/-- Spec-side definition, following the spec's words `s=<urlencoded Query>`:
standard URL-encoding of the query string (as encodeURIComponent would
produce), to be compared with the URL the code actually builds. -/
def specUrlEncode (s : String) : String :=
  String.join (s.data.map fun c =>
    if isUnreservedURI c then String.mk [c]
    else String.join ((charUtf8Bytes c).map byteEscape))

/-- The request URL the claim describes: search endpoint, fixed key, and the
URL-encoded form of the query as the `s` parameter. -/
def claimedUrl (query : String) : String :=
  "http://www.omdbapi.com/?apikey=" ++ KEY ++ "&&s=" ++ specUrlEncode query

/-! ## Helper lemmas -/

lemma applyActions_append (as bs : List HookAction) (s : HookState) :
    applyActions (as ++ bs) s = applyActions bs (applyActions as s) :=
  List.foldl_append ..

lemma err_ne_abort : ("Error" : String) ≠ "AbortError" := by decide

lemma catchActions_abort (msg : String) : catchActions "AbortError" msg = [] := by
  simp [catchActions]

lemma catchActions_of_ne (name msg : String) (h : name ≠ "AbortError") :
    catchActions name msg = [HookAction.consoleLog msg, HookAction.setError msg] := by
  simp [catchActions, h]

lemma isLoading_after_post (o : FetchOutcome) (s : HookState) :
    (applyActions (fetchPostActions o) s).isLoading = false := by
  rw [fetchPostActions, applyActions_append]
  rfl

lemma attemptFinal_isLoading (q : String) (o : FetchOutcome) (s : HookState) :
    (attemptFinal q o s).isLoading = false := by
  rw [attemptFinal, fetchMoviesActions, applyActions_append]
  exact isLoading_after_post o _

/-! ## Claims -/

/-- C2: for every query of length < 3 the effect is the synchronous gate: it
issues no network request, its actions are exactly clearing results to the
empty array and clearing the error, and (the gate leaving `isLoading`
untouched) the hook's state ends at empty results, empty error and
`isLoading = false` whenever it was false going in. -/
theorem gateShortCircuit (q : String) (o : FetchOutcome) (s : HookState)
    (hq : q.length < 3) (hs : s.isLoading = false) :
    fetchRequests (effectActions q o) = []
    ∧ effectActions q o = [HookAction.setMovies (some []), HookAction.setError ""]
    ∧ effectFinal q o s = { movies := some [], isLoading := false, error := "" } := by
  have he : effectActions q o = gateActions := if_pos hq
  refine ⟨by rw [he]; rfl, by rw [he]; rfl, ?_⟩
  rw [effectFinal, he]
  cases s with
  | mk m l e =>
    simp only [HookState.isLoading] at hs
    subst hs
    rfl

/-- Witness for C2 at the concrete query `"hi"`. -/
theorem gateShortCircuit_witness :
    fetchRequests (effectActions "hi" (FetchOutcome.reject "AbortError" "")) = []
    ∧ effectActions "hi" (FetchOutcome.reject "AbortError" "")
        = [HookAction.setMovies (some []), HookAction.setError ""]
    ∧ effectFinal "hi" (FetchOutcome.reject "AbortError" "") initialState
        = { movies := some [], isLoading := false, error := "" } :=
  gateShortCircuit "hi" (FetchOutcome.reject "AbortError" "") initialState
    (by decide) rfl

/-- C3: on a 200-class response whose body has `Response` different from
`"False"` and a `Search` array, the attempt's final state is exactly that
array as results, an empty error, and `isLoading = false`. -/
theorem successReplacesResults (q : String) (res : HttpResponse) (xs : List ResultItem)
    (s : HookState) (hok : res.ok = true) (hresp : res.body.Response ≠ "False")
    (hsearch : res.body.Search = some xs) :
    attemptFinal q (FetchOutcome.success res) s
      = { movies := some xs, isLoading := false, error := "" } := by
  cases s with
  | mk m l e =>
    simp [attemptFinal, fetchMoviesActions, attemptStartActions, fetchPostActions,
      attemptMidActions, hok, hresp, hsearch, applyActions, applyAction]

/-- Witness for C3 at a concrete 200 response with one search hit. -/
theorem successReplacesResults_witness :
    attemptFinal "inception"
        (FetchOutcome.success
          { ok := true, status := 200,
            body := { Response := "True",
                      Search := some [{ imdbID := "tt1375666", Title := "Inception",
                                        Year := "2010", Poster := "N/A" }] } })
        initialState
      = { movies := some [{ imdbID := "tt1375666", Title := "Inception",
                            Year := "2010", Poster := "N/A" }],
          isLoading := false, error := "" } :=
  successReplacesResults "inception" _ _ initialState rfl (by decide) rfl

/-- C4: on a 200-class response with `Response = "False"`, the attempt sets
the error to exactly "Movie not found!", leaves results at their prior
value, logs that message, and ends with `isLoading = false`. -/
theorem notFoundKeepsResults (q : String) (res : HttpResponse) (s : HookState)
    (hok : res.ok = true) (hresp : res.body.Response = "False") :
    attemptFinal q (FetchOutcome.success res) s
      = { movies := s.movies, isLoading := false, error := "Movie not found!" }
    ∧ attemptLogs (FetchOutcome.success res) = ["Movie not found!"] := by
  cases s with
  | mk m l e =>
    constructor <;>
      simp [attemptFinal, fetchMoviesActions, attemptStartActions, fetchPostActions,
        attemptMidActions, catchActions, attemptLogs, actionLogs, err_ne_abort,
        hok, hresp, applyActions, applyAction]

/-- Witness for C4 at a concrete not-found response, starting from a state
with prior results to show they are kept. -/
theorem notFoundKeepsResults_witness :
    attemptFinal "zzzz"
        (FetchOutcome.success
          { ok := true, status := 200, body := { Response := "False", Search := none } })
        { movies := some [{ imdbID := "tt1", Title := "Kept", Year := "2000", Poster := "N/A" }],
          isLoading := false, error := "" }
      = { movies := some [{ imdbID := "tt1", Title := "Kept", Year := "2000", Poster := "N/A" }],
          isLoading := false, error := "Movie not found!" }
    ∧ attemptLogs
        (FetchOutcome.success
          { ok := true, status := 200, body := { Response := "False", Search := none } })
        = ["Movie not found!"] :=
  notFoundKeepsResults "zzzz" _ _ rfl rfl

/-- C5: on a non-200-class response the attempt's published error is the
transport error's message, that message contains the decimal string of the
HTTP status code, and `isLoading` ends false. -/
theorem httpErrorCarriesStatus (q : String) (res : HttpResponse) (s : HookState)
    (hok : res.ok = false) :
    (attemptFinal q (FetchOutcome.success res) s).error = httpErrMsg res.status
    ∧ (∃ pre suf, (attemptFinal q (FetchOutcome.success res) s).error
        = pre ++ toString res.status ++ suf)
    ∧ (attemptFinal q (FetchOutcome.success res) s).isLoading = false
    ∧ attemptLogs (FetchOutcome.success res) = [httpErrMsg res.status] := by
  have herr : (attemptFinal q (FetchOutcome.success res) s).error = httpErrMsg res.status := by
    cases s with
    | mk m l e =>
      simp [attemptFinal, fetchMoviesActions, attemptStartActions, fetchPostActions,
        attemptMidActions, catchActions, err_ne_abort, hok, applyActions, applyAction]
  refine ⟨herr, ⟨"Something wrong with fetching movies. HTTP error status: ", "", ?_⟩,
    attemptFinal_isLoading q _ s, ?_⟩
  · rw [herr, httpErrMsg, String.append_empty]
  · simp [attemptLogs, actionLogs, fetchPostActions, attemptMidActions, catchActions,
      err_ne_abort, hok]

/-- Witness for C5 at a concrete 404 response: the error string contains
"404" and loading ends false. -/
theorem httpErrorCarriesStatus_witness :
    (∃ pre suf,
      (attemptFinal "batman"
          (FetchOutcome.success
            { ok := false, status := 404, body := { Response := "True", Search := none } })
          initialState).error
        = pre ++ "404" ++ suf)
    ∧ (attemptFinal "batman"
          (FetchOutcome.success
            { ok := false, status := 404, body := { Response := "True", Search := none } })
          initialState).isLoading = false :=
  ⟨(httpErrorCarriesStatus "batman" _ initialState rfl).2.1,
   (httpErrorCarriesStatus "batman" _ initialState rfl).2.2.1⟩

/-- C6: a cancelled attempt (rejection named "AbortError") performs only the
`finally` reset after the fetch: no error write, no results write, no log
entry; its final state is the attempt-start state with loading cleared and
results untouched.  Every genuine failure kind (rejection with another name,
non-ok HTTP status, `Response = "False"`) is instead converted locally into
the error string — the caller observes a final state, never an exception. -/
theorem abortFilteredFromErrors (q : String) (msg : String) (s : HookState) :
    fetchPostActions (FetchOutcome.reject "AbortError" msg)
      = [HookAction.setIsLoading false]
    ∧ attemptLogs (FetchOutcome.reject "AbortError" msg) = []
    ∧ attemptFinal q (FetchOutcome.reject "AbortError" msg) s
        = { attemptStart s with isLoading := false }
    ∧ (attemptFinal q (FetchOutcome.reject "AbortError" msg) s).movies = s.movies
    ∧ (∀ name m, name ≠ "AbortError" →
        (attemptFinal q (FetchOutcome.reject name m) s).error = m
        ∧ attemptLogs (FetchOutcome.reject name m) = [m]
        ∧ (attemptFinal q (FetchOutcome.reject name m) s).movies = s.movies)
    ∧ (∀ res : HttpResponse, res.ok = false →
        (attemptFinal q (FetchOutcome.success res) s).error = httpErrMsg res.status)
    ∧ (∀ res : HttpResponse, res.ok = true → res.body.Response = "False" →
        (attemptFinal q (FetchOutcome.success res) s).error = "Movie not found!") := by
  cases s with
  | mk m l e =>
    refine ⟨?_, ?_, ?_, ?_, ?_, ?_, ?_⟩
    · simp [fetchPostActions, attemptMidActions, catchActions]
    · simp [attemptLogs, actionLogs, fetchPostActions, attemptMidActions, catchActions]
    · simp [attemptFinal, fetchMoviesActions, attemptStartActions, fetchPostActions,
        attemptMidActions, catchActions, attemptStart, applyActions, applyAction]
    · simp [attemptFinal, fetchMoviesActions, attemptStartActions, fetchPostActions,
        attemptMidActions, catchActions, applyActions, applyAction]
    · intro name m2 hname
      refine ⟨?_, ?_, ?_⟩ <;>
        simp [attemptFinal, fetchMoviesActions, attemptStartActions, fetchPostActions,
          attemptMidActions, catchActions, attemptLogs, actionLogs, hname,
          applyActions, applyAction]
    · intro res hok
      simp [attemptFinal, fetchMoviesActions, attemptStartActions, fetchPostActions,
        attemptMidActions, catchActions, err_ne_abort, hok, applyActions, applyAction]
    · intro res hok hresp
      simp [attemptFinal, fetchMoviesActions, attemptStartActions, fetchPostActions,
        attemptMidActions, catchActions, err_ne_abort, hok, hresp, applyActions, applyAction]

/-- Witness for C6 at concrete inputs: an aborted attempt starting from a
state with prior results and a prior error, and a genuine network failure. -/
theorem abortFilteredFromErrors_witness :
    attemptFinal "batman" (FetchOutcome.reject "AbortError" "The user aborted a request.")
        { movies := some [{ imdbID := "tt2", Title := "Prior", Year := "1999", Poster := "N/A" }],
          isLoading := true, error := "old error" }
      = { movies := some [{ imdbID := "tt2", Title := "Prior", Year := "1999", Poster := "N/A" }],
          isLoading := false, error := "" }
    ∧ attemptLogs (FetchOutcome.reject "AbortError" "The user aborted a request.") = []
    ∧ (attemptFinal "batman" (FetchOutcome.reject "TypeError" "Failed to fetch")
          initialState).error = "Failed to fetch" := by
  have h := abortFilteredFromErrors "batman" "The user aborted a request."
    { movies := some [{ imdbID := "tt2", Title := "Prior", Year := "1999", Poster := "N/A" }],
      isLoading := true, error := "old error" }
  have h2 := abortFilteredFromErrors "batman" "The user aborted a request." initialState
  exact ⟨h.2.2.1, h.2.1,
    (h2.2.2.2.2.1 "TypeError" "Failed to fetch" (by decide)).1⟩

/-- C7: every non-gated attempt begins by setting `isLoading := true` and
clearing the error before the outbound request, performs no other
`isLoading` write until the `finally` clause, and on every exit path
(success, every failure kind, cancellation) its last action resets
`isLoading := false`; consequently the state after any such effect run has
`isLoading = false`. -/
theorem loadingResetOnEveryExit (q : String) (o : FetchOutcome) (hq : ¬ q.length < 3) :
    (∃ mid, effectActions q o
        = [HookAction.setIsLoading true, HookAction.setError "",
            HookAction.fetchRequest (requestUrl q)]
          ++ mid ++ [HookAction.setIsLoading false]
      ∧ ∀ a ∈ mid, isSetIsLoading a = false)
    ∧ (∀ s : HookState, (effectFinal q o s).isLoading = false) := by
  have he : effectActions q o = fetchMoviesActions q o := if_neg hq
  constructor
  · refine ⟨attemptMidActions o, ?_, ?_⟩
    · rw [he, fetchMoviesActions, attemptStartActions, fetchPostActions,
        List.append_assoc]
    · intro a ha
      cases o with
      | success res =>
        rcases res with ⟨ok, status, body⟩
        cases ok with
        | false =>
          simp [attemptMidActions, catchActions, err_ne_abort] at ha
          rcases ha with h1 | h1 <;> subst h1 <;> rfl
        | true =>
          by_cases hresp : body.Response = "False"
          · simp [attemptMidActions, catchActions, err_ne_abort, hresp] at ha
            rcases ha with h1 | h1 <;> subst h1 <;> rfl
          · simp [attemptMidActions, hresp] at ha
            rcases ha with h1 | h1 <;> subst h1 <;> rfl
      | reject name msg =>
        by_cases hname : name = "AbortError"
        · subst hname
          simp [attemptMidActions, catchActions] at ha
        · simp [attemptMidActions, catchActions, hname] at ha
          rcases ha with h1 | h1 <;> subst h1 <;> rfl
  · intro s
    rw [effectFinal, he, fetchMoviesActions, applyActions_append]
    exact isLoading_after_post o _

/-- Witness for C7 at the concrete query "bat" with a 500 failure outcome. -/
theorem loadingResetOnEveryExit_witness :
    ((∃ mid, effectActions "bat"
        (FetchOutcome.success
          { ok := false, status := 500, body := { Response := "True", Search := none } })
        = [HookAction.setIsLoading true, HookAction.setError "",
            HookAction.fetchRequest (requestUrl "bat")]
          ++ mid ++ [HookAction.setIsLoading false]
      ∧ ∀ a ∈ mid, isSetIsLoading a = false)
    ∧ (∀ s : HookState,
        (effectFinal "bat"
          (FetchOutcome.success
            { ok := false, status := 500, body := { Response := "True", Search := none } })
          s).isLoading = false)) :=
  loadingResetOnEveryExit "bat" _ (by decide)

/-- C8 counterexample: for the query "a b" the URL the code builds carries
the query verbatim, which differs from the URL the claim describes (the
URL-encoded form of the query as the `s` parameter). -/
theorem rawQueryUrl_cex : ¬ (requestUrl "a b" = claimedUrl "a b") := by decide

lemma fetchRequests_append (as bs : List HookAction) :
    fetchRequests (as ++ bs) = fetchRequests as ++ fetchRequests bs := by
  simp [fetchRequests]

lemma fetchRequests_catch (name msg : String) :
    fetchRequests (catchActions name msg) = [] := by
  by_cases h : name = "AbortError" <;> simp [catchActions, h, fetchRequests]

lemma fetchRequests_post (o : FetchOutcome) :
    fetchRequests (fetchPostActions o) = [] := by
  cases o with
  | success res =>
    rcases res with ⟨ok, status, body⟩
    cases ok with
    | false =>
      simp [fetchPostActions, attemptMidActions, fetchRequests_append, fetchRequests_catch]
      rfl
    | true =>
      by_cases hresp : body.Response = "False" <;>
        simp [fetchPostActions, attemptMidActions, hresp, fetchRequests_append,
          fetchRequests_catch] <;> rfl
  | reject name msg =>
    simp [fetchPostActions, attemptMidActions, fetchRequests_append, fetchRequests_catch]
    rfl

/-- C8 (amended): every non-gated attempt issues exactly one HTTP GET, to
the search endpoint with the fixed API key, whose `s` parameter carries the
current query string verbatim (interpolated raw, not URL-encoded). -/
theorem singleRequestRawQuery (q : String) (o : FetchOutcome) (hq : ¬ q.length < 3) :
    fetchRequests (effectActions q o)
      = ["http://www.omdbapi.com/?apikey=b0237cb1&&s=" ++ q] := by
  have he : effectActions q o = fetchMoviesActions q o := if_neg hq
  rw [he, fetchMoviesActions, fetchRequests_append, fetchRequests_post,
    List.append_nil]
  show [requestUrl q] = _
  rw [requestUrl, KEY]
  rfl

/-- Witness for the amended C8 at the concrete query "bat". -/
theorem singleRequestRawQuery_witness :
    fetchRequests (effectActions "bat" (FetchOutcome.reject "AbortError" ""))
      = ["http://www.omdbapi.com/?apikey=b0237cb1&&s=bat"] :=
  singleRequestRawQuery "bat" (FetchOutcome.reject "AbortError" "") (by decide)

/-- C9: running the effect for the same query with the same remote outcome
twice in succession yields the same final state as running it once. -/
theorem sameQueryIdempotent (q : String) (o : FetchOutcome) (s : HookState) :
    effectFinal q o (effectFinal q o s) = effectFinal q o s := by
  cases s with
  | mk m l e =>
    rw [effectFinal, effectFinal, effectActions]
    by_cases hq : q.length < 3
    · rw [if_pos hq]
      rfl
    · rw [if_neg hq]
      cases o with
      | success res =>
        rcases res with ⟨ok, status, body⟩
        cases ok with
        | false =>
          simp [fetchMoviesActions, attemptStartActions, fetchPostActions,
            attemptMidActions, catchActions, err_ne_abort, applyActions, applyAction]
        | true =>
          by_cases hresp : body.Response = "False" <;>
            simp [fetchMoviesActions, attemptStartActions, fetchPostActions,
              attemptMidActions, catchActions, err_ne_abort, hresp,
              applyActions, applyAction]
      | reject name msg =>
        by_cases hname : name = "AbortError" <;>
          simp [fetchMoviesActions, attemptStartActions, fetchPostActions,
            attemptMidActions, catchActions, hname, applyActions, applyAction]

/-- C10: on a 200-class response with `Response` different from `"False"`
but no `Search` field, the attempt publishes the absent value unvalidated:
results becomes the undefined value (`none`), not an array and not the
prior result list. -/
theorem missingSearchPublishesUndefined (q : String) (res : HttpResponse) (s : HookState)
    (hok : res.ok = true) (hresp : res.body.Response ≠ "False")
    (hsearch : res.body.Search = none) :
    (attemptFinal q (FetchOutcome.success res) s).movies = none
    ∧ (∀ xs : List ResultItem,
        (attemptFinal q (FetchOutcome.success res) s).movies ≠ some xs) := by
  have hmv : (attemptFinal q (FetchOutcome.success res) s).movies = none := by
    cases s with
    | mk m l e =>
      simp [attemptFinal, fetchMoviesActions, attemptStartActions, fetchPostActions,
        attemptMidActions, hok, hresp, hsearch, applyActions, applyAction]
  exact ⟨hmv, fun xs h => by rw [hmv] at h; exact Option.noConfusion h⟩

/-- Witness for C10 at a concrete 200 response with no `Search` field,
starting from a state holding a prior result list. -/
theorem missingSearchPublishesUndefined_witness :
    (attemptFinal "odd"
        (FetchOutcome.success
          { ok := true, status := 200, body := { Response := "True", Search := none } })
        { movies := some [{ imdbID := "tt3", Title := "Old", Year := "1990", Poster := "N/A" }],
          isLoading := false, error := "" }).movies = none
    ∧ (∀ xs : List ResultItem,
        (attemptFinal "odd"
          (FetchOutcome.success
            { ok := true, status := 200, body := { Response := "True", Search := none } })
          { movies := some [{ imdbID := "tt3", Title := "Old", Year := "1990", Poster := "N/A" }],
            isLoading := false, error := "" }).movies ≠ some xs) :=
  missingSearchPublishesUndefined "odd" _ _ rfl (by decide) rfl

/-- A concrete search hit for the query "bat". -/
def batItem : ResultItem :=
  { imdbID := "tt0096895", Title := "Batman", Year := "1989", Poster := "N/A" }

/-- A concrete search hit for the query "sup". -/
def supItem : ResultItem :=
  { imdbID := "tt0078346", Title := "Superman", Year := "1978", Poster := "N/A" }

/-- The outcome of the "bat" attempt: a 200 response with one hit,
delivered by a transport that does not observe the abort signal. -/
def batOutcome : FetchOutcome :=
  FetchOutcome.success
    { ok := true, status := 200, body := { Response := "True", Search := some [batItem] } }

/-- The outcome of the "sup" attempt: a 200 response with one hit. -/
def supOutcome : FetchOutcome :=
  FetchOutcome.success
    { ok := true, status := 200, body := { Response := "True", Search := some [supItem] } }

/-- C1 counterexample: the query changes from "bat" to "sup" before "bat"'s
attempt resolves, and "bat"'s transport delivers its successful response
late (after "sup"'s outcome was published) instead of observing the abort
signal.  No attempt-identity check exists in the code, so the superseded
attempt's stale results overwrite the newer attempt's published results:
the final state shows "bat"'s list, not "sup"'s. -/
theorem staleOverwrite_cex :
    (staleOverwriteFinal initialState "bat" batOutcome "sup" supOutcome).movies
      = some [batItem]
    ∧ (attemptFinal "sup" supOutcome
        (applyActions (attemptStartActions "bat") initialState)).movies
      = some [supItem]
    ∧ some [batItem] ≠ (some [supItem] : Option (List ResultItem)) :=
  ⟨by decide, by decide, by decide⟩

lemma setLoadingFalse_id (t : HookState) (h : t.isLoading = false) :
    applyActions [HookAction.setIsLoading false] t = t := by
  cases t with
  | mk m l e =>
    simp only [HookState.isLoading] at h
    subst h
    rfl

/-- C1 (amended): stale responses are discarded only through the
cancellation token — when the superseded attempt's transport observes the
abort signal and rejects with an "AbortError", its late settlement performs
only the `finally` reset and the final state equals the newer attempt's
published state; there is no attempt-identity check, so this guarantee does
not extend to a transport that delivers a superseded success late. -/
theorem abortRespectedKeepsNewerState (s0 : HookState) (q1 q2 msg : String)
    (o2 : FetchOutcome) :
    staleOverwriteFinal s0 q1 (FetchOutcome.reject "AbortError" msg) q2 o2
      = attemptFinal q2 o2 (applyActions (attemptStartActions q1) s0) := by
  have hp : fetchPostActions (FetchOutcome.reject "AbortError" msg)
      = [HookAction.setIsLoading false] := by
    simp [fetchPostActions, attemptMidActions, catchActions]
  rw [staleOverwriteFinal, hp]
  exact setLoadingFalse_id _ (attemptFinal_isLoading q2 o2 _)
